import Mathlib

/-!
Verification of the Twisted-based Modbus server (`pymodbus/server/async.py`)
against its natural-language specification.

The dispatch core (`ModbusProtocol`, `ModbusServerFactory`, the bootstrap
helpers) is embedded shallowly: stateful Python code becomes explicit state
passing, `try`/`except` becomes `Except`, and the external collaborators
(Framer, Datastore, PDU base classes, the Twisted reactor) are modelled from
the contract the spec states for them.
-/

/-- Python exception information carried by a raise; the catch in
`ModbusProtocol.execute` catches every failure the collaborators can raise,
so a plain message string suffices. -/
abbrev PyExc : Type := String

/-- Modelled from the spec: the per-unit store capability returned by a
Datastore-context lookup.  Its internals are out of scope; an abstract token
suffices for the dispatch core. -/
abbrev SlaveContext : Type := Nat

/-- Modelled from the spec: the Datastore context, a mapping from unit id to a
store capability.  Lookup may fail when the unit is not present. -/
structure ModbusServerContext where
  slaves : List (Nat × SlaveContext)
deriving DecidableEq

/-- Modelled from the spec: `ModbusServerContext()` with no slaves configured
is the fresh empty context used as the factory default. -/
def ModbusServerContext.new : ModbusServerContext := ⟨[]⟩

/-- Modelled from the spec: `context[unit_id]`; raises when the unit id has no
entry in the Datastore context. -/
def ModbusServerContext.getItem (c : ModbusServerContext) (uid : Nat) :
    Except PyExc SlaveContext :=
  match c.slaves.lookup uid with
  | some s => Except.ok s
  | none => Except.error "no slave context"

/-- Modelled from the spec: the fixed "execution failure" Modbus exception
code (`ModbusExceptions.SlaveFailure`, imported as `merror`). -/
def ModbusExceptions.SlaveFailure : Nat := 4

/-- Response message: correlation identifiers, function code or exception
marker, error code or payload.  Built by store execution or by
`Request.doException`. -/
structure Response where
  transaction_id : Nat
  unit_id : Nat
  function_code : Nat
  isException : Bool
  exception_code : Nat
  payload : List Nat
deriving DecidableEq

/-- Request message as decoded by the Framer/Decoder: correlation identifiers,
function code, and its `execute` method (here the field `exec`), which runs
the request against a slave store capability and may raise. -/
structure Request where
  transaction_id : Nat
  unit_id : Nat
  function_code : Nat
  exec : SlaveContext → Except PyExc Response

/-- Modelled from the spec: `request.doException(code)` (PDU base class,
outside this file's source) builds an error Response carrying the given
exception code; its correlation identifiers start at the PDU defaults and are
overwritten by the caller. -/
def Request.doException (request : Request) (code : Nat) : Response :=
  { transaction_id := 0
  , unit_id := 0
  , function_code := request.function_code ||| 128
  , isException := true
  , exception_code := code
  , payload := [] }

/-- Modelled from the spec: the shared `ServerDecoder` built once by the
factory; its internals are out of scope, an identity token suffices. -/
structure ServerDecoder where
  id : Nat
deriving DecidableEq

/-- Modelled from the spec: `ServerDecoder()`. -/
def ServerDecoder.new : ServerDecoder := ⟨0⟩

/-- The Framer classes the module imports; `other` stands for any further
framer class a caller may pass. -/
inductive FramerType
  | socket
  | ascii
  | other (id : Nat)
deriving DecidableEq

/-- Modelled from the spec: a per-connection Framer instance, freshly
constructed with an empty partial-frame buffer and bound to a decoder. -/
structure FramerInstance where
  ftype : FramerType
  decoder : ServerDecoder
  buffer : List Nat
deriving DecidableEq

/-- Modelled from the spec: constructing `framer(decoder=...)` yields a fresh
instance with an empty buffer. -/
def FramerInstance.new (ftype : FramerType) (decoder : ServerDecoder) :
    FramerInstance :=
  { ftype := ftype, decoder := decoder, buffer := [] }

/-- Modelled from the spec: a Framer's frame-extraction strategy.  Given the
accumulated bytes it returns the complete decoded Requests, in order, and the
remaining buffered partial-frame bytes.  Wire format is out of scope, so the
strategy is a parameter. -/
abbrev ExtractStrategy : Type := List Nat → List Request × List Nat

/-- Modelled from the spec: `framer.processIncomingPacket(data, callback)`
consumes the buffered bytes plus the new chunk, decodes zero or more complete
Requests, and invokes the callback once per Request in decoding order. -/
def FramerInstance.processIncomingPacket (extract : ExtractStrategy)
    (fr : FramerInstance) (data : List Nat) (callback : Request → Response) :
    FramerInstance × List Response :=
  ({ fr with buffer := (extract (fr.buffer ++ data)).2 }
  , ((extract (fr.buffer ++ data)).1).map callback)

/-- The device identity record (`ModbusDeviceIdentification`), modelled as an
association list of (object id, value) pairs. -/
structure ModbusDeviceIdentification where
  info : List (Nat × String)
deriving DecidableEq

/-- Modelled from the spec: the default empty identity. -/
def ModbusDeviceIdentification.new : ModbusDeviceIdentification := ⟨[]⟩

/-- Modelled from the spec: `Identity.update(identity)` applies the override;
entries of the override take precedence over the defaults. -/
def ModbusDeviceIdentification.update (base override : ModbusDeviceIdentification) :
    ModbusDeviceIdentification :=
  ⟨override.info ++ base.info⟩

/-- The server control block; only its `Identity` member is touched by this
module. -/
structure ModbusControlBlock where
  Identity : ModbusDeviceIdentification
deriving DecidableEq

/-- Modelled from the spec: `ModbusControlBlock()` starts from the default
identity. -/
def ModbusControlBlock.new : ModbusControlBlock :=
  { Identity := ModbusDeviceIdentification.new }

/-- The `store` argument of `ModbusServerFactory.__init__` as a Python value:
`None`, or a context object together with its truthiness (`bool(store)`),
since the initializer tests it with `or`. -/
inductive StoreArg
  | pynone
  | ctx (truthy : Bool) (s : ModbusServerContext)
deriving DecidableEq

/-- Python truthiness of the store argument. -/
def StoreArg.toBool : StoreArg → Bool
  | StoreArg.pynone => false
  | StoreArg.ctx t _ => t

/-- The `framer` argument: `None` or a framer class (classes are always
truthy in Python). -/
inductive FramerArg
  | pynone
  | cls (f : FramerType)
deriving DecidableEq

/-- The `identity` argument: `None`, a `ModbusDeviceIdentification` instance,
or any other (non-instance) value. -/
inductive IdentityArg
  | pynone
  | mdi (d : ModbusDeviceIdentification)
  | other (id : Nat)
deriving DecidableEq

/-- Python `store or ModbusServerContext()`: the supplied object when truthy,
otherwise the fresh default. -/
def pyOrStore (a : StoreArg) (dflt : ModbusServerContext) : ModbusServerContext :=
  match a with
  | StoreArg.pynone => dflt
  | StoreArg.ctx t s => if t then s else dflt

/-- Python `framer or ModbusSocketFramer`: a supplied class is truthy, `None`
falls back to the socket framer. -/
def pyOrFramer (a : FramerArg) (dflt : FramerType) : FramerType :=
  match a with
  | FramerArg.pynone => dflt
  | FramerArg.cls f => f

/-- The state `ModbusServerFactory.__init__` establishes: shared decoder,
resolved framer type, retained store, control block. -/
structure ModbusServerFactory where
  decoder : ServerDecoder
  framer : FramerType
  store : ModbusServerContext
  control : ModbusControlBlock

/-- Embedding of `ModbusServerFactory.__init__`: builds the decoder, resolves
the framer with `framer or ModbusSocketFramer`, retains the store with
`store or ModbusServerContext()`, builds the control block, and applies the
identity override only when `isinstance(identity, ModbusDeviceIdentification)`
holds. -/
def ModbusServerFactory.init (store : StoreArg) (framer : FramerArg)
    (identity : IdentityArg) : ModbusServerFactory :=
  { decoder := ServerDecoder.new
  , framer := pyOrFramer framer FramerType.socket
  , store := pyOrStore store ModbusServerContext.new
  , control :=
      match identity with
      | IdentityArg.mdi d =>
          { ModbusControlBlock.new with
              Identity := ModbusControlBlock.new.Identity.update d }
      | _ => ModbusControlBlock.new }

/-- Per-connection protocol state.  The Framer slot is `none` until
`connectionMade` runs (the protocol instance is created fresh by the factory
for each accepted connection). -/
structure ModbusProtocol where
  framer : Option FramerInstance
deriving DecidableEq

/-- A protocol instance as freshly built by `factory.buildProtocol`: no
framer allocated yet. -/
def ModbusProtocol.fresh : ModbusProtocol := { framer := none }

/-- Embedding of `ModbusProtocol.connectionMade`: allocates a fresh Framer
bound to the factory's shared decoder.  The returned list is the responses
sent during the callback — none. -/
def ModbusProtocol.connectionMade (self : ModbusProtocol)
    (factory : ModbusServerFactory) : ModbusProtocol × List Response :=
  ({ self with framer := some (FramerInstance.new factory.framer factory.decoder) }
  , [])

/-- Embedding of `ModbusProtocol.connectionLost`: the body only logs; no
response is sent.  The protocol instance itself is discarded by the framework
afterwards. -/
def ModbusProtocol.connectionLost (self : ModbusProtocol) (reason : PyExc) :
    List Response :=
  []

/-- The `try` block of `ModbusProtocol.execute`:
`context = self.factory.store[request.unit_id]` then
`response = request.execute(context)`; either step may raise. -/
def ModbusProtocol.executeBody (factory : ModbusServerFactory)
    (request : Request) : Except PyExc Response := do
  let context ← factory.store.getItem request.unit_id
  request.exec context

/-- Embedding of `ModbusProtocol.execute`: the `except` clause catches every
failure of the body and substitutes `request.doException(merror.SlaveFailure)`;
then the correlation identifiers are overwritten from the request,
unconditionally, and the result is the response passed to `self.send`. -/
def ModbusProtocol.execute (factory : ModbusServerFactory)
    (request : Request) : Response :=
  let response :=
    match ModbusProtocol.executeBody factory request with
    | Except.ok r => r
    | Except.error _ => request.doException ModbusExceptions.SlaveFailure
  { response with
      transaction_id := request.transaction_id
    , unit_id := request.unit_id }

/-- The same handler written in the exception monad, so that the
no-uncaught-exception property is statable: the body runs under `tryCatch`
exactly as the Python `try`/`except` wraps it, and anything the handler
itself raised would surface as `Except.error`. -/
def ModbusProtocol.executeExc (factory : ModbusServerFactory)
    (request : Request) : Except PyExc Response := do
  let response ← tryCatch (ModbusProtocol.executeBody factory request)
    (fun _ => pure (request.doException ModbusExceptions.SlaveFailure))
  pure { response with
           transaction_id := request.transaction_id
         , unit_id := request.unit_id }

/-- Embedding of `ModbusProtocol.dataReceived`: feed the chunk to the
connection's Framer, which invokes `self.execute` once per decoded Request in
order; the produced responses are those handed to `self.send`.  Before
`connectionMade` (or after the instance is discarded) there is no framer and
nothing is processed. -/
def ModbusProtocol.dataReceived (extract : ExtractStrategy)
    (self : ModbusProtocol) (factory : ModbusServerFactory)
    (data : List Nat) : ModbusProtocol × List Response :=
  match self.framer with
  | none => (self, [])
  | some fr =>
      let r := fr.processIncomingPacket extract data
        (fun q => ModbusProtocol.execute factory q)
      ({ self with framer := some r.1 }, r.2)

/-- A server with several live connections, indexed by connection id; each
connection owns its own `ModbusProtocol` instance. -/
abbrev ConnectionSystem : Type := Nat → ModbusProtocol

/-- Modelled from the spec: accepting connection `cid` builds a fresh
protocol instance and runs its `connectionMade`. -/
def ConnectionSystem.connect (sys : ConnectionSystem)
    (factory : ModbusServerFactory) (cid : Nat) : ConnectionSystem :=
  fun i =>
    if i = cid then (ModbusProtocol.fresh.connectionMade factory).1 else sys i

/-- Bytes arriving on connection `cid` are delivered to that connection's
protocol only; the responses are those sent on that connection. -/
def ConnectionSystem.deliver (extract : ExtractStrategy)
    (sys : ConnectionSystem) (factory : ModbusServerFactory) (cid : Nat)
    (data : List Nat) : ConnectionSystem × List Response :=
  ((fun i =>
      if i = cid then
        (ModbusProtocol.dataReceived extract (sys cid) factory data).1
      else sys i)
  , (ModbusProtocol.dataReceived extract (sys cid) factory data).2)

/-- Modelled from the spec: on disconnect the framework runs
`connectionLost` and then discards the protocol instance, so the connection
slot reverts to a fresh (framer-less) protocol; the returned responses are
those sent during the teardown. -/
def ConnectionSystem.disconnect (sys : ConnectionSystem) (cid : Nat)
    (reason : PyExc) : ConnectionSystem × List Response :=
  ((fun i => if i = cid then ModbusProtocol.fresh else sys i)
  , ModbusProtocol.connectionLost (sys cid) reason)

/-- Modelled from the spec: the fixed default serial baud rate
(`Defaults.Baudrate` from `pymodbus.constants`). -/
def Defaults.Baudrate : Nat := 19200

/-- The configuration `StartSerialServer` establishes before running the
reactor: the factory it builds, the protocol it constructs, and the baud rate
it opens the serial port with. -/
structure SerialServerSetup where
  factory : ModbusServerFactory
  protocol : ModbusProtocol
  baudrate : Nat

/-- Embedding of `StartSerialServer`: the `framer` parameter defaults to
`ModbusAsciiFramer` when the caller omits it (`Option.none`); the factory is
built from the given context, and the serial port is opened at
`Defaults.Baudrate`. -/
def StartSerialServer (context : StoreArg) (identity : IdentityArg)
    (framerArg : Option FramerType) : SerialServerSetup :=
  let framer :=
    match framerArg with
    | none => FramerType.ascii
    | some f => f
  let factory := ModbusServerFactory.init context (FramerArg.cls framer) identity
  { factory := factory
  , protocol := ModbusProtocol.fresh
  , baudrate := Defaults.Baudrate }

/-! ### Helper lemmas -/

theorem execute_transaction_id (factory : ModbusServerFactory) (q : Request) :
    (ModbusProtocol.execute factory q).transaction_id = q.transaction_id := rfl

theorem execute_unit_id (factory : ModbusServerFactory) (q : Request) :
    (ModbusProtocol.execute factory q).unit_id = q.unit_id := rfl

theorem dataReceived_some (extract : ExtractStrategy) (p : ModbusProtocol)
    (factory : ModbusServerFactory) (data : List Nat) (fr : FramerInstance)
    (h : p.framer = some fr) :
    ModbusProtocol.dataReceived extract p factory data =
      ({ p with framer := some { fr with buffer := (extract (fr.buffer ++ data)).2 } }
      , ((extract (fr.buffer ++ data)).1).map
          (fun q => ModbusProtocol.execute factory q)) := by
  simp [ModbusProtocol.dataReceived, h, FramerInstance.processIncomingPacket]

/-! ### Claim theorems -/

/-- C1: for every Request on which `ModbusProtocol.execute` is invoked, the
Response passed to `send` carries the request's transaction id and unit id,
on the success path and the error path alike, because both fields are
overwritten from the request after the response is constructed and before
`send`. -/
theorem execute_preserves_correlation_ids (factory : ModbusServerFactory)
    (q : Request) :
    (ModbusProtocol.execute factory q).transaction_id = q.transaction_id ∧
    (ModbusProtocol.execute factory q).unit_id = q.unit_id :=
  ⟨execute_transaction_id factory q, execute_unit_id factory q⟩

/-- C2: every failure of the datastore lookup or the store execution is
answered with an error Response carrying the fixed `SlaveFailure` ("execution
failure") code, still correlated with the request's transaction id and unit
id. -/
theorem execute_failure_gives_slave_failure (factory : ModbusServerFactory)
    (q : Request)
    (h : (∃ e, factory.store.getItem q.unit_id = Except.error e) ∨
         (∃ c, factory.store.getItem q.unit_id = Except.ok c ∧
            ∃ e, q.exec c = Except.error e)) :
    (ModbusProtocol.execute factory q).isException = true ∧
    (ModbusProtocol.execute factory q).exception_code =
      ModbusExceptions.SlaveFailure ∧
    (ModbusProtocol.execute factory q).transaction_id = q.transaction_id ∧
    (ModbusProtocol.execute factory q).unit_id = q.unit_id := by
  have hbody : ∃ e, ModbusProtocol.executeBody factory q = Except.error e := by
    rcases h with ⟨e, he⟩ | ⟨c, hc, e, he⟩
    · refine ⟨e, ?_⟩
      unfold ModbusProtocol.executeBody
      rw [he]
      exact rfl
    · refine ⟨e, ?_⟩
      unfold ModbusProtocol.executeBody
      rw [hc]
      exact he
  rcases hbody with ⟨e, he⟩
  simp [ModbusProtocol.execute, he, Request.doException]

/-- C3: no exception raised by the datastore lookup or by store execution
escapes `execute` uncaught: in the exception monad the handler always returns
normally, with exactly the well-formed Response that `execute` sends. -/
theorem executeExc_never_raises (factory : ModbusServerFactory) (q : Request) :
    ModbusProtocol.executeExc factory q =
      Except.ok (ModbusProtocol.execute factory q) := by
  unfold ModbusProtocol.executeExc ModbusProtocol.execute
  cases hb : ModbusProtocol.executeBody factory q <;> rfl

/-- C4: when the Framer decodes N Requests from one chunk handed to
`dataReceived`, exactly N Responses are produced and sent, one per Request,
in decoding order, each correlated with its Request. -/
theorem dataReceived_one_response_per_request (extract : ExtractStrategy)
    (p : ModbusProtocol) (factory : ModbusServerFactory) (data : List Nat)
    (fr : FramerInstance) (h : p.framer = some fr) :
    ((ModbusProtocol.dataReceived extract p factory data).2).length =
      ((extract (fr.buffer ++ data)).1).length ∧
    ∀ (i : Nat) (q : Request), ((extract (fr.buffer ++ data)).1)[i]? = some q →
      ∃ r : Response,
        ((ModbusProtocol.dataReceived extract p factory data).2)[i]? = some r ∧
        r.transaction_id = q.transaction_id ∧ r.unit_id = q.unit_id := by
  rw [dataReceived_some extract p factory data fr h]
  constructor
  · simp
  · intro i q hq
    refine ⟨ModbusProtocol.execute factory q, ?_, rfl, rfl⟩
    simp [List.getElem?_map, hq]

/-- C5: `connectionMade` allocates a fresh Framer (empty buffer) bound to the
factory's shared decoder, processes no requests, and no Framer is shared
between connections: connecting `a` leaves `b` untouched, and data delivered
to `a` leaves `b`'s framer state unchanged. -/
theorem connectionMade_fresh_framer (sys : ConnectionSystem)
    (factory : ModbusServerFactory) (a b : Nat) (extract : ExtractStrategy)
    (data : List Nat) (hab : a ≠ b) :
    (ModbusProtocol.fresh.connectionMade factory).2 = [] ∧
    (ConnectionSystem.connect sys factory a) a =
      { framer := some (FramerInstance.new factory.framer factory.decoder) } ∧
    (FramerInstance.new factory.framer factory.decoder).buffer = [] ∧
    (ConnectionSystem.connect sys factory a) b = sys b ∧
    ((ConnectionSystem.deliver extract (ConnectionSystem.connect sys factory a)
        factory a data).1) b = (ConnectionSystem.connect sys factory a) b := by
  refine ⟨rfl, ?_, rfl, ?_, ?_⟩
  · simp [ConnectionSystem.connect, ModbusProtocol.connectionMade,
      ModbusProtocol.fresh]
  · simp [ConnectionSystem.connect, Ne.symm hab]
  · simp [ConnectionSystem.deliver, Ne.symm hab]

/-- C6: on disconnect nothing further is sent, a discarded connection
processes no more data, and a later connection on the same slot starts from a
fresh Framer with an empty buffer — no partial frame survives a reconnect. -/
theorem connectionLost_discards_state (sys : ConnectionSystem) (cid : Nat)
    (reason : PyExc) (factory : ModbusServerFactory)
    (extract : ExtractStrategy) (data : List Nat) :
    (ConnectionSystem.disconnect sys cid reason).2 = [] ∧
    (ConnectionSystem.deliver extract (ConnectionSystem.disconnect sys cid reason).1
        factory cid data).2 = [] ∧
    ∃ fr, ((ConnectionSystem.connect (ConnectionSystem.disconnect sys cid reason).1
        factory cid) cid).framer = some fr ∧ fr.buffer = [] := by
  refine ⟨rfl, ?_, FramerInstance.new factory.framer factory.decoder, ?_, rfl⟩
  · simp [ConnectionSystem.deliver, ConnectionSystem.disconnect,
      ModbusProtocol.dataReceived, ModbusProtocol.fresh]
  · simp [ConnectionSystem.connect, ModbusProtocol.connectionMade,
      ModbusProtocol.fresh]

/-- C7: the factory defaults the framer to `ModbusSocketFramer` when given
`None`, defaults the store to a fresh empty `ModbusServerContext` when given
`None`, and retains a supplied (truthy) store as-is — the very object its
handlers share. -/
theorem factory_defaults_and_store_retention (s : ModbusServerContext)
    (sa : StoreArg) (fa : FramerArg) (ia : IdentityArg) :
    (ModbusServerFactory.init sa FramerArg.pynone ia).framer = FramerType.socket ∧
    (ModbusServerFactory.init StoreArg.pynone fa ia).store = ModbusServerContext.new ∧
    (ModbusServerFactory.init (StoreArg.ctx true s) fa ia).store = s :=
  ⟨rfl, rfl, rfl⟩

/-- C8: the identity override is applied exactly when the supplied argument
is a `ModbusDeviceIdentification` instance; any other value (including
`None`) leaves the default identity unchanged. -/
theorem factory_identity_override_iff :
    (∀ d sa fa, (ModbusServerFactory.init sa fa (IdentityArg.mdi d)).control.Identity =
        ModbusControlBlock.new.Identity.update d) ∧
    (∀ a sa fa, (∀ d, a ≠ IdentityArg.mdi d) →
      (ModbusServerFactory.init sa fa a).control.Identity =
        ModbusControlBlock.new.Identity) := by
  constructor
  · intro d sa fa
    rfl
  · intro a sa fa h
    cases a with
    | pynone => rfl
    | mdi d => exact absurd rfl (h d)
    | other n => rfl

/-- C9: `StartSerialServer` with the framer argument omitted uses the
line-oriented `ModbusAsciiFramer` and opens the serial port at the fixed
default `Defaults.Baudrate`. -/
theorem startSerialServer_defaults (context : StoreArg) (identity : IdentityArg) :
    (StartSerialServer context identity none).factory.framer = FramerType.ascii ∧
    (StartSerialServer context identity none).baudrate = Defaults.Baudrate :=
  ⟨rfl, rfl⟩

/-- C10: because the initializer computes `store or ModbusServerContext()`,
any falsy store argument — `None` or a context object whose truthiness is
false — is discarded and replaced by a fresh empty context, and is therefore
never retained. -/
theorem falsy_store_replaced (sa : StoreArg) (fa : FramerArg)
    (ia : IdentityArg) (h : sa.toBool = false) :
    (ModbusServerFactory.init sa fa ia).store = ModbusServerContext.new := by
  cases sa with
  | pynone => rfl
  | ctx t s =>
      cases t with
      | false => rfl
      | true => simp [StoreArg.toBool] at h

/-! ### Concrete inputs used by the witnesses -/

def wFactory : ModbusServerFactory :=
  ModbusServerFactory.init (StoreArg.ctx true ⟨[(1, 0)]⟩) FramerArg.pynone
    IdentityArg.pynone

def wreqMissing : Request :=
  { transaction_id := 5, unit_id := 2, function_code := 3
  , exec := fun _ => Except.error "store fault" }

def wreq1 : Request :=
  { transaction_id := 5, unit_id := 1, function_code := 3
  , exec := fun c => Except.ok
      { transaction_id := 0, unit_id := 0, function_code := 3
      , isException := false, exception_code := 0, payload := [c] } }

def wreq2 : Request :=
  { transaction_id := 6, unit_id := 2, function_code := 3
  , exec := fun _ => Except.error "second store fault" }

def wExtract : ExtractStrategy := fun _ => ([wreq1, wreq2], [])

def wProto : ModbusProtocol :=
  { framer := some (FramerInstance.new FramerType.socket ServerDecoder.new) }

def wSys : ConnectionSystem := fun _ => ModbusProtocol.fresh

/-! ### Witnesses -/

theorem execute_failure_gives_slave_failure_witness :
    (ModbusProtocol.execute wFactory wreqMissing).isException = true ∧
    (ModbusProtocol.execute wFactory wreqMissing).exception_code =
      ModbusExceptions.SlaveFailure ∧
    (ModbusProtocol.execute wFactory wreqMissing).transaction_id =
      wreqMissing.transaction_id ∧
    (ModbusProtocol.execute wFactory wreqMissing).unit_id = wreqMissing.unit_id :=
  execute_failure_gives_slave_failure wFactory wreqMissing
    (Or.inl ⟨"no slave context", rfl⟩)

theorem dataReceived_one_response_per_request_witness :
    ((ModbusProtocol.dataReceived wExtract wProto wFactory [7]).2).length =
      ((wExtract ((FramerInstance.new FramerType.socket ServerDecoder.new).buffer
          ++ [7])).1).length ∧
    ∃ r, ((ModbusProtocol.dataReceived wExtract wProto wFactory [7]).2)[1]? = some r ∧
      r.transaction_id = wreq2.transaction_id ∧ r.unit_id = wreq2.unit_id :=
  ⟨(dataReceived_one_response_per_request wExtract wProto wFactory [7]
      (FramerInstance.new FramerType.socket ServerDecoder.new) rfl).1,
   (dataReceived_one_response_per_request wExtract wProto wFactory [7]
      (FramerInstance.new FramerType.socket ServerDecoder.new) rfl).2 1 wreq2 rfl⟩

theorem connectionMade_fresh_framer_witness :
    (ModbusProtocol.fresh.connectionMade wFactory).2 = [] ∧
    (ConnectionSystem.connect wSys wFactory 0) 0 =
      { framer := some (FramerInstance.new wFactory.framer wFactory.decoder) } ∧
    (FramerInstance.new wFactory.framer wFactory.decoder).buffer = [] ∧
    (ConnectionSystem.connect wSys wFactory 0) 1 = wSys 1 ∧
    ((ConnectionSystem.deliver wExtract (ConnectionSystem.connect wSys wFactory 0)
        wFactory 0 [7]).1) 1 = (ConnectionSystem.connect wSys wFactory 0) 1 :=
  connectionMade_fresh_framer wSys wFactory 0 1 wExtract [7] (by decide)

theorem factory_identity_override_iff_witness :
    (ModbusServerFactory.init StoreArg.pynone FramerArg.pynone
        (IdentityArg.mdi ⟨[(0, "vendor")]⟩)).control.Identity =
      ModbusControlBlock.new.Identity.update ⟨[(0, "vendor")]⟩ ∧
    (ModbusServerFactory.init StoreArg.pynone FramerArg.pynone
        IdentityArg.pynone).control.Identity = ModbusControlBlock.new.Identity :=
  ⟨factory_identity_override_iff.1 ⟨[(0, "vendor")]⟩ StoreArg.pynone FramerArg.pynone,
   factory_identity_override_iff.2 IdentityArg.pynone StoreArg.pynone FramerArg.pynone
     (fun d h => IdentityArg.noConfusion h)⟩

theorem falsy_store_replaced_witness :
    (ModbusServerFactory.init (StoreArg.ctx false ⟨[(1, 9)]⟩) FramerArg.pynone
        IdentityArg.pynone).store = ModbusServerContext.new :=
  falsy_store_replaced (StoreArg.ctx false ⟨[(1, 9)]⟩) FramerArg.pynone
    IdentityArg.pynone rfl
